import Mathlib

/-
Verification development for the `tasks` component of this repository
(src/moonraker/components/tasks.py).  The component tracks print tasks in a
persistent key-value namespace, keeps an in-memory pointer to the current
task and a snapshot of the last device status, and reacts to device events.

Modelling conventions:
  - Python dicts used as string-keyed tables are association lists
    `List (String × α)` with dict semantics (update in place, append new
    keys at the end).
  - The wall clock (`time.time()`) is an explicit `now : Nat` argument.
  - The gcode metadata namespace (`self.gcdb`) is a function
    `String → Option String`; metadata values are treated as plain strings.
  - The file existence check (`file_manager.check_file_exists`) is a
    function `String → Bool`.
  - Fallible handlers return `Option TasksState`: `none` models a Python
    exception escaping the handler (AttributeError, KeyError,
    UnboundLocalError), `some s` a normal return with resulting state `s`.
  - Stored task dicts are always produced by `PrinterTask.to_dict`, hence
    always carry all eight fields; the store value type is therefore the
    total record `PrinterTask` itself.
-/

namespace Moonraker

/-- Python dict lookup `d.get(k)` / `k in d` on a string-keyed table. -/
def dGet {α : Type} (m : List (String × α)) (k : String) : Option α :=
  (m.find? (fun p => p.1 == k)).map (fun p => p.2)

/-- Python dict assignment `d[k] = v`: update in place if the key exists,
otherwise append at the end. -/
def dSet {α : Type} (m : List (String × α)) (k : String) (v : α) :
    List (String × α) :=
  match m with
  | [] => [(k, v)]
  | (k1, v1) :: rest =>
    if k1 = k then (k, v) :: rest else (k1, v1) :: dSet rest k v

/-- Fuel-indexed digit extraction: pushes the decimal digits of n, least
significant digit first, onto the front of the accumulator.  Any fuel
larger than n is enough. -/
def natDigitsCore : Nat → Nat → List Char → List Char
  | 0, _, acc => acc
  | fuel + 1, n, acc =>
    let d := Char.ofNat (48 + n % 10)
    if n < 10 then d :: acc
    else natDigitsCore fuel (n / 10) (d :: acc)

/-- Decimal digit characters of a natural number, most significant first:
the digits of `str(n)` in Python. -/
def natDigits (n : Nat) : List Char :=
  natDigitsCore (n + 1) n []

/-- Python format `taskid` zero padded to width at least 6 (format spec 06):
the task id rendering used by `_handle_create_task`, `_start_task` and
`get_task`. -/
def fmt06 (n : Nat) : String :=
  let ds := natDigits n
  String.mk (List.replicate (6 - ds.length) '0' ++ ds)

/-- `os.path.basename`: the part of the path after the last slash, computed
by scanning the characters and restarting the collected suffix at every
slash. -/
def basename (p : String) : String :=
  String.mk (p.toList.foldl (fun acc c => if c = '/' then [] else acc ++ [c]) [])

/-- Root part of `os.path.splitext` applied to a basename: drop the
extension starting at the last dot, unless every character before that dot
is itself a dot (hidden files keep their name whole). -/
def splitextRoot (b : String) : String :=
  let cs := b.toList
  match cs.reverse.findIdx? (fun c => c == '.') with
  | none => b
  | some j =>
    let i := cs.length - 1 - j
    if (cs.take i).any (fun c => c != '.') then String.mk (cs.take i) else b

/-- The `PrinterTask` entity (source lines 177 to 205).  `to_dict` returns a
copy of the attribute dict, which holds exactly these eight fields, so the
record doubles as the stored dict representation. -/
structure PrinterTask where
  task_id : String
  created_time : Nat
  filename : String
  name : String
  metadata : Option String
  status : String
  last_job_id : Option String
  jobs : List String
deriving DecidableEq, Repr

/-- `PrinterTask.__init__(data)` on a stored dict `d` (source lines 178 to
187).  The named fields are read from the dict.  The falsy fallback of
`created_time` to `time.time()` at line 180 is transient: stored dicts are
always produced by `to_dict` and hence carry the created_time key, so
`update_from_ps` immediately re-copies the stored value over the fallback
(the attribute exists by then), and the stored value is kept even when it
is 0 — the `now` argument therefore never survives into the result.
`update_from_ps` also re-copies the other five attributes that already
exist, while the jobs and last_job_id keys are skipped because those
attributes do not exist yet at that point; finally lines 186 and 187
assign `last_job_id = None` and `jobs = []`, discarding the stored job
history. -/
def PrinterTask.ofData (_now : Nat) (d : PrinterTask) : PrinterTask :=
  { task_id := d.task_id
    created_time := d.created_time
    filename := d.filename
    name := d.name
    metadata := d.metadata
    status := d.status
    last_job_id := none
    jobs := [] }

/-- State owned by the `Tasks` component: the `tasks` table and `nextid`
counter of the tasks namespace, the in-memory current pointer and the last
observed `print_stats` snapshot (string-valued fields only; the handlers
read only the `state` field). -/
structure TasksState where
  tasks : List (String × PrinterTask)
  nextid : Nat
  current : Option String
  print_stats : List (String × String)
deriving DecidableEq, Repr

/-- State right after `Tasks.__init__`: `current = None`,
`print_stats` empty, an empty tasks table installed, and no `nextid` key
(reads of `nextid` default to 0, so the counter starts at 0). -/
def Tasks.initState : TasksState :=
  { tasks := [], nextid := 0, current := none, print_stats := [] }

/-- Payload of a `server:status_update` notification, reduced to the member
the handler extracts, namely the print_stats entry of the data dict with an
empty mapping as default: a payload without that key is the empty
mapping. -/
structure StatusData where
  print_stats : List (String × String)
deriving DecidableEq, Repr

/-- `Tasks.get_task` (source lines 108 to 117), at the normalized key: the
int branch is applied by the caller (`_start_task` formats int ids with
`fmt06`; the other call sites pass `self.current`, an `Option String`).
A `none` key misses the table (`dict.get(None)` finds nothing, since all
keys are id strings); a missing id returns `None`; otherwise the stored
dict is deserialized through `PrinterTask.__init__` and the metadata field
is overwritten with a fresh join `self.gcdb.get(task.filename)`. -/
def Tasks.get_task (s : TasksState) (gcdb : String → Option String)
    (now : Nat) (taskid : Option String) : Option PrinterTask :=
  taskid.bind (fun tid =>
    (dGet s.tasks tid).map (fun d =>
      let task := PrinterTask.ofData now d
      { task with metadata := gcdb task.filename }))

/-- `Tasks.save_task` (source lines 119 to 122): read the whole tasks
table, set the entry keyed by `task.task_id` to `task.to_dict()`, write the
table back. -/
def Tasks.save_task (s : TasksState) (task : PrinterTask) : TasksState :=
  { s with tasks := dSet s.tasks task.task_id task }

/-- `Tasks.set_task_state` (source lines 124 to 127): fetch the current
task, set its status, save it.  When `get_task` returns `None` (no current
task, or the current id is not stored) the assignment
`task.status = status` raises AttributeError, modelled as `none`. -/
def Tasks.set_task_state (s : TasksState) (gcdb : String → Option String)
    (now : Nat) (status : String) : Option TasksState :=
  (Tasks.get_task s gcdb now s.current).map (fun task =>
    Tasks.save_task s { task with status := status })

/-- `Tasks.finish_task` (source lines 129 to 131): set the state, then
clear the current pointer.  If `set_task_state` raises, the pointer is not
cleared. -/
def Tasks.finish_task (s : TasksState) (gcdb : String → Option String)
    (now : Nat) (status : String) : Option TasksState :=
  (Tasks.set_task_state s gcdb now status).map (fun s1 =>
    { s1 with current := none })

/-- The transition block of `Tasks._status_update` (source lines 151 to
159): the statements that run once the guard at line 150 has passed.  It
mirrors the source statement for statement: an `if printing and current`
guard, an `elif current` branch containing first `if complete`, then a
separate `if standby elif error` chain.  The guard at line 150 compares
`new_state is not old_state` by object identity: `old_state` comes from
the snapshot parsed once at subscription time while `new_state` is parsed
from the incoming message, so two equal valued states are still distinct
objects and this block also runs for a value equal duplicate event — this
definition exposes the block so that behaviour can be evaluated
directly. -/
def Tasks.status_update_transition (s : TasksState)
    (gcdb : String → Option String) (now : Nat) (new_state : String) :
    Option TasksState :=
  if new_state = "printing" ∧ s.current ≠ none then
    Tasks.set_task_state s gcdb now "printing"
  else if s.current ≠ none then
    (if new_state = "complete" then
      Tasks.finish_task s gcdb now "completed"
    else some s).bind (fun s1 =>
      if new_state = "standby" then
        Tasks.finish_task s1 gcdb now "cancelled"
      else if new_state = "error" then
        Tasks.finish_task s1 gcdb now "error"
      else some s1)
  else some s

/-- `Tasks._status_update` (source lines 142 to 159).  If the payload has no
`state` field the handler falls through (no state change).  Otherwise the
subscript read of the state key of the snapshot raises KeyError when the
snapshot lacks the key (modelled as `none`).  The local new_ps, a copy of
the snapshot updated with the payload, is computed by the source and then
dropped: the snapshot field is never written back, which the model
reflects by leaving `print_stats` untouched.  The comparison
`new_state is not old_state` at line 150 is rendered here as string value
inequality; it is an object identity test in the source, which also
passes when the two states are equal in value but are distinct objects
(see `Tasks.status_update_transition` for the block that then runs). -/
def Tasks.status_update (s : TasksState) (gcdb : String → Option String)
    (now : Nat) (data : StatusData) : Option TasksState :=
  let ps := data.print_stats
  match dGet ps "state" with
  | none => some s
  | some new_state =>
    match dGet s.print_stats "state" with
    | none => none
    | some old_state =>
      if new_state ≠ old_state then
        Tasks.status_update_transition s gcdb now new_state
      else some s

/-- `Tasks._handle_shutdown` (source lines 161 to 162): unconditionally
finish the current task with status `klippy_shutdown`. -/
def Tasks.handle_shutdown (s : TasksState) (gcdb : String → Option String)
    (now : Nat) : Option TasksState :=
  Tasks.finish_task s gcdb now "klippy_shutdown"

/-- `Tasks._handle_disconnect` (source lines 164 to 165): unconditionally
finish the current task with status `klippy_disconnect`. -/
def Tasks.handle_disconnect (s : TasksState) (gcdb : String → Option String)
    (now : Nat) : Option TasksState :=
  Tasks.finish_task s gcdb now "klippy_disconnect"

/-- Truthiness of `self.current` in the guard `if self.current:` of
`_handle_history`: `None` and the empty string are falsy. -/
def optTruthy : Option String → Bool
  | none => false
  | some c => c != ""

/-- `Tasks._handle_history` (source lines 167 to 174), on a
`history:history_changed` event with the given `action` and, inside the
`job` member, `job_id`.  Only action `added` with a truthy current pointer
does anything: fetch the current task, set `last_job_id`, append to `jobs`,
save.  If `get_task` returns `None` the attribute assignment raises
(modelled `none`). -/
def Tasks.handle_history (s : TasksState) (gcdb : String → Option String)
    (now : Nat) (action : String) (job_id : String) : Option TasksState :=
  if action = "added" then
    if optTruthy s.current then
      (Tasks.get_task s gcdb now s.current).map (fun task =>
        Tasks.save_task s
          { task with last_job_id := some job_id
                      jobs := task.jobs ++ [job_id] })
    else some s
  else some s

/-- The fresh task built by `_handle_create_task` (source lines 81 to 86):
`PrinterTask()` on the empty dict leaves metadata `None`, `last_job_id`
`None` and `jobs` empty; the handler then assigns filename, name (basename
of the file without extension), created_time (`time.time()`), task_id
(`taskid` formatted by `fmt06`) and status `created`. -/
def Tasks.newTask (taskid : Nat) (file : String) (now : Nat) : PrinterTask :=
  { task_id := fmt06 taskid
    created_time := now
    filename := file
    name := splitextRoot (basename file)
    metadata := none
    status := "created"
    last_job_id := none
    jobs := [] }

/-- `Tasks._handle_create_task` (source lines 72 to 90): read the `nextid`
counter (default 0), check file existence (returning the structured error
without any write when the file is missing), build and save the fresh task,
increment the counter, return the task dict. -/
def Tasks.handle_create_task (s : TasksState) (file_exists : String → Bool)
    (now : Nat) (file : String) : TasksState × Except String PrinterTask :=
  let taskid := s.nextid
  if !(file_exists file) then
    (s, Except.error "File does not exist")
  else
    let task := Tasks.newTask taskid file now
    let s1 := Tasks.save_task s task
    ({ s1 with nextid := taskid + 1 }, Except.ok task)

/-- Outcome of the `_start_task` endpoint: a normal return (the source
returns `None` implicitly on success), a structured error dict, or an
exception from `klippy_apis.start_print` propagating out of the handler. -/
inductive StartResult where
  | ok : StartResult
  | err : String → StartResult
  | raised : StartResult
deriving DecidableEq, Repr

/-- `Tasks._start_task` (source lines 92 to 105): a missing `id` parameter
yields the error `No task specified`; the int id is formatted with `fmt06`;
an unknown id yields `Task does not exist`; then the handler awaits
`start_print(task.filename)` (success or failure given by `start_print_ok`:
on failure the exception propagates and the current pointer is NOT set);
on success `self.current` is set to the formatted id. -/
def Tasks.start_task (s : TasksState) (gcdb : String → Option String)
    (now : Nat) (start_print_ok : String → Bool) (idArg : Option Nat) :
    TasksState × StartResult :=
  match idArg with
  | none => (s, StartResult.err "No task specified")
  | some n =>
    let taskid := fmt06 n
    match Tasks.get_task s gcdb now (some taskid) with
    | none => (s, StartResult.err "Task does not exist")
    | some task =>
      if start_print_ok task.filename then
        ({ s with current := some taskid }, StartResult.ok)
      else (s, StartResult.raised)

/-- `Tasks._handle_tasks_list` (source lines 53 to 61): iterate the raw
stored dicts, overwrite each metadata field with a fresh join from the
gcode metadata namespace, return the list.  The tasks table is always
present after `__init__`, so the `savedtasks is None` branch never fires. -/
def Tasks.handle_tasks_list (s : TasksState)
    (gcdb : String → Option String) : List PrinterTask :=
  s.tasks.map (fun p => { p.2 with metadata := gcdb p.2.filename })

/-- `Tasks._handle_current_task` (source lines 63 to 70): `None` when no
task is current, otherwise `get_task(self.current)` materialized (the
source returns `task.to_dict()`, i.e. the full record). -/
def Tasks.handle_current_task (s : TasksState)
    (gcdb : String → Option String) (now : Nat) : Option PrinterTask :=
  match s.current with
  | none => none
  | some c => Tasks.get_task s gcdb now (some c)

/-- `Tasks._init_ready` (source lines 133 to 140): subscribe to
print_stats.  On success the snapshot becomes the `print_stats` member of
the result (empty when absent).  When `subscribe_objects` raises a server
error the handler logs and then evaluates `result.get` on the local
`result` that was never bound: UnboundLocalError, modelled as `none`. -/
def Tasks.init_ready (s : TasksState)
    (subscribe : Except Unit (Option (List (String × String)))) :
    Option TasksState :=
  match subscribe with
  | Except.error _ => none
  | Except.ok r => some { s with print_stats := r.getD [] }

/-- Sequential create calls: fold `_handle_create_task` over a list of
(file, time) requests, collecting the per-call results. -/
def Tasks.createMany (file_exists : String → Bool) :
    TasksState → List (String × Nat) →
    TasksState × List (Except String PrinterTask)
  | s, [] => (s, [])
  | s, (file, now) :: rest =>
    let r := Tasks.handle_create_task s file_exists now file
    let rr := Tasks.createMany file_exists r.1 rest
    (rr.1, r.2 :: rr.2)

/-- Index the elements of a list with consecutive numbers starting at k. -/
def enumWith {α : Type} (k : Nat) : List α → List (Nat × α)
  | [] => []
  | x :: xs => (k, x) :: enumWith (k + 1) xs

/-- One step of reading a decimal digit string back into a number. -/
def digitStep (a : Nat) (c : Char) : Nat := a * 10 + (c.toNat - 48)

/-- Numeric value of a decimal digit string, used to show that the task id
rendering is injective. -/
def digitsVal (cs : List Char) : Nat := cs.foldl digitStep 0

/-- Task id of a successful create result, if any. -/
def okTaskId : Except String PrinterTask → Option String
  | Except.ok t => some t.task_id
  | Except.error _ => none

/-- A concrete gcode metadata table for witnesses: only part.gcode has an
entry. -/
def gcdbEx : String → Option String :=
  fun f => if f = "part.gcode" then some "META" else none

/-- A concrete stored task for witnesses. -/
def sampleTask : PrinterTask :=
  { task_id := "000000"
    created_time := 5
    filename := "part.gcode"
    name := "part"
    metadata := none
    status := "created"
    last_job_id := none
    jobs := [] }

/-- A concrete manager state for witnesses: one stored task which is
current, and a last observed snapshot in state standby. -/
def sampleState : TasksState :=
  { tasks := [("000000", sampleTask)]
    nextid := 1
    current := some "000000"
    print_stats := [("state", "standby")] }

/-- A run of the component from the freshly initialized state: klippy
becomes ready with the device in standby, a task is created for
part.gcode, started, and the device then reports printing.  Used to
exhibit the store contents of a reachable state. -/
def chain8 : Option TasksState :=
  (Tasks.init_ready Tasks.initState
      (Except.ok (some [("state", "standby")]))).bind (fun s0 =>
    let r1 := Tasks.handle_create_task s0 (fun _ => true) 5 "part.gcode"
    let r2 := Tasks.start_task r1.1 gcdbEx 6 (fun _ => true) (some 0)
    Tasks.status_update r2.1 gcdbEx 7 { print_stats := [("state", "printing")] })

/-- The record that `set_task_state` persists when the current task is
stored as `d`: the deserialization of `d` (jobs and last_job_id reset),
with the freshly joined metadata attached by `get_task`, and the new
status. -/
def materialized (gcdb : String → Option String) (_now : Nat)
    (d : PrinterTask) (st : String) : PrinterTask :=
  { task_id := d.task_id
    created_time := d.created_time
    filename := d.filename
    name := d.name
    metadata := gcdb d.filename
    status := st
    last_job_id := none
    jobs := [] }

/-- The state left behind by `set_task_state` when the current task was
stored as `d`: only the store entry under the task id of `d` changes, to
the materialized record. -/
def afterSet (s : TasksState) (gcdb : String → Option String) (now : Nat)
    (d : PrinterTask) (st : String) : TasksState :=
  { s with tasks := dSet s.tasks d.task_id (materialized gcdb now d st) }

/-- The state left behind by `finish_task`: as afterSet, with the current
pointer cleared. -/
def afterFinish (s : TasksState) (gcdb : String → Option String) (now : Nat)
    (d : PrinterTask) (st : String) : TasksState :=
  { afterSet s gcdb now d st with current := none }

/-! Basic facts about the dict operations. -/

theorem dGet_cons {α : Type} (k1 : String) (v1 : α) (rest : List (String × α))
    (k : String) :
    dGet ((k1, v1) :: rest) k = if k1 = k then some v1 else dGet rest k := by
  by_cases h : k1 = k <;> simp [dGet, List.find?_cons, h]

theorem dGet_dSet_self {α : Type} (m : List (String × α)) (k : String) (v : α) :
    dGet (dSet m k v) k = some v := by
  induction m with
  | nil => simp [dSet, dGet_cons]
  | cons p rest ih =>
    obtain ⟨k1, v1⟩ := p
    by_cases h : k1 = k
    · subst h; simp [dSet, dGet_cons]
    · simp [dSet, h, dGet_cons, ih]

theorem dGet_dSet_ne {α : Type} (m : List (String × α)) (k k1 : String) (v : α)
    (h : k ≠ k1) : dGet (dSet m k v) k1 = dGet m k1 := by
  induction m with
  | nil => simp [dSet, dGet_cons, dGet, h]
  | cons p rest ih =>
    obtain ⟨k2, v2⟩ := p
    by_cases h2 : k2 = k
    · subst h2; simp [dSet, dGet_cons, h]
    · simp [dSet, h2, dGet_cons, ih]

theorem dSet_dSet_self {α : Type} (m : List (String × α)) (k : String)
    (v w : α) : dSet (dSet m k v) k w = dSet m k w := by
  induction m with
  | nil => simp [dSet]
  | cons p rest ih =>
    obtain ⟨k1, v1⟩ := p
    by_cases h : k1 = k
    · subst h; simp [dSet]
    · simp [dSet, h, ih]

/-! Facts about the decimal rendering of task ids. -/

theorem toNat_digitChar : ∀ d < 10, (Char.ofNat (48 + d)).toNat = 48 + d := by
  decide

theorem natDigitsCore_acc (fuel : Nat) :
    ∀ n acc, natDigitsCore fuel n acc = natDigitsCore fuel n [] ++ acc := by
  induction fuel with
  | zero => intro n acc; rfl
  | succ fuel ih =>
    intro n acc
    by_cases h : n < 10
    · simp [natDigitsCore, h]
    · simp only [natDigitsCore, if_neg h]
      rw [ih (n / 10) (Char.ofNat (48 + n % 10) :: acc),
          ih (n / 10) [Char.ofNat (48 + n % 10)]]
      simp

theorem digitsVal_append (l : List Char) (c : Char) :
    digitsVal (l ++ [c]) = digitsVal l * 10 + (c.toNat - 48) := by
  simp [digitsVal, List.foldl_append, digitStep]

theorem natDigitsCore_val (fuel : Nat) :
    ∀ n, n < fuel → digitsVal (natDigitsCore fuel n []) = n := by
  induction fuel with
  | zero => intro n h; omega
  | succ fuel ih =>
    intro n h
    by_cases h10 : n < 10
    · simp only [natDigitsCore, if_pos h10]
      have : n % 10 = n := Nat.mod_eq_of_lt h10
      simp [digitsVal, digitStep, this, toNat_digitChar n h10]
    · simp only [natDigitsCore, if_neg h10]
      rw [natDigitsCore_acc, digitsVal_append,
          ih (n / 10) (by omega),
          toNat_digitChar (n % 10) (Nat.mod_lt _ (by omega))]
      omega

theorem natDigitsCore_length (fuel : Nat) :
    ∀ n k, n < fuel → n < 10 ^ k → 1 ≤ k →
      (natDigitsCore fuel n []).length ≤ k := by
  induction fuel with
  | zero => intro n k h _ _; omega
  | succ fuel ih =>
    intro n k h hk h1
    by_cases h10 : n < 10
    · simp [natDigitsCore, h10]; omega
    · simp only [natDigitsCore, if_neg h10]
      rw [natDigitsCore_acc, List.length_append]
      have hk2 : 2 ≤ k := by
        by_contra hcon
        have : k = 1 := by omega
        subst this
        simp at hk
        omega
      have hdiv : n / 10 < 10 ^ (k - 1) := by
        rw [Nat.div_lt_iff_lt_mul (by omega)]
        calc n < 10 ^ k := hk
          _ = 10 ^ (k - 1) * 10 := by
              rw [← Nat.pow_succ]
              congr 1
              omega
      have := ih (n / 10) (k - 1) (by omega) hdiv (by omega)
      simp
      omega

theorem digitsVal_natDigits (n : Nat) : digitsVal (natDigits n) = n :=
  natDigitsCore_val (n + 1) n (Nat.lt_succ_self n)

theorem natDigits_length_le (n : Nat) (h : n < 1000000) :
    (natDigits n).length ≤ 6 := by
  have h6 : n < 10 ^ 6 := by norm_num; omega
  exact natDigitsCore_length (n + 1) n 6 (Nat.lt_succ_self n) h6 (by omega)

theorem digitsVal_pad (k : Nat) (l : List Char) :
    digitsVal (List.replicate k '0' ++ l) = digitsVal l := by
  induction k with
  | zero => rfl
  | succ k ih =>
    show digitsVal ('0' :: (List.replicate k '0' ++ l)) = digitsVal l
    have : digitStep 0 '0' = 0 := rfl
    simp only [digitsVal, List.foldl_cons, this] at *
    exact ih

theorem fmt06_val (n : Nat) : digitsVal (fmt06 n).data = n := by
  show digitsVal (List.replicate (6 - (natDigits n).length) '0' ++ natDigits n) = n
  rw [digitsVal_pad]
  exact digitsVal_natDigits n

theorem fmt06_injective : Function.Injective fmt06 := by
  intro a b h
  have ha := fmt06_val a
  rw [h, fmt06_val b] at ha
  omega

theorem fmt06_length (n : Nat) (h : n < 1000000) : (fmt06 n).length = 6 := by
  have h6 := natDigits_length_le n h
  show (String.mk (List.replicate (6 - (natDigits n).length) '0' ++
    natDigits n)).length = 6
  simp [String.length]
  omega

/-! Facts about sequential create calls. -/

theorem enumWith_map_fst {α : Type} (l : List α) :
    ∀ k, (enumWith k l).map Prod.fst = List.range' k l.length := by
  induction l with
  | nil => intro k; rfl
  | cons x xs ih =>
    intro k
    simp only [enumWith, List.map_cons, List.length_cons, List.range'_succ]
    rw [ih (k + 1)]

theorem createMany_spec (fe : String → Bool) (inputs : List (String × Nat)) :
    ∀ s : TasksState, (∀ p ∈ inputs, fe p.1 = true) →
      (Tasks.createMany fe s inputs).2 =
        (enumWith s.nextid inputs).map
          (fun q => Except.ok (Tasks.newTask q.1 q.2.1 q.2.2)) ∧
      (Tasks.createMany fe s inputs).1.nextid = s.nextid + inputs.length := by
  induction inputs with
  | nil => intro s _; simp [Tasks.createMany, enumWith]
  | cons p rest ih =>
    intro s h
    obtain ⟨file, now⟩ := p
    have hf : fe file = true := h (file, now) (List.mem_cons_self _ _)
    have hrest : ∀ q ∈ rest, fe q.1 = true :=
      fun q hq => h q (List.mem_cons_of_mem _ hq)
    have hstep : Tasks.handle_create_task s fe now file =
        ({ Tasks.save_task s (Tasks.newTask s.nextid file now) with
            nextid := s.nextid + 1 },
          Except.ok (Tasks.newTask s.nextid file now)) := by
      simp [Tasks.handle_create_task, hf]
    have hnext : ({ Tasks.save_task s (Tasks.newTask s.nextid file now) with
        nextid := s.nextid + 1 } : TasksState).nextid = s.nextid + 1 := rfl
    obtain ⟨ih1, ih2⟩ := ih ({ Tasks.save_task s
      (Tasks.newTask s.nextid file now) with nextid := s.nextid + 1 }) hrest
    constructor
    · simp only [Tasks.createMany, hstep, enumWith, List.map_cons]
      rw [ih1, hnext]
    · simp only [Tasks.createMany, hstep]
      rw [ih2, hnext]
      simp
      omega

/-- C4: a create call whose filename does not exist in the gcode repository
returns the structured error `File does not exist`, persists no task record
and leaves the next id counter unchanged, so a subsequent successful create
receives exactly the task (and in particular the id `fmt06 s.nextid`) that
the failed call would have produced. -/
theorem claim4_create_missing_file (s : TasksState) (fe : String → Bool)
    (now : Nat) (file : String) (hmiss : fe file = false) :
    Tasks.handle_create_task s fe now file =
      (s, Except.error "File does not exist") ∧
    (∀ file2 now2, fe file2 = true →
      (Tasks.handle_create_task
          (Tasks.handle_create_task s fe now file).1 fe now2 file2).2 =
        Except.ok (Tasks.newTask s.nextid file2 now2)) := by
  have h1 : Tasks.handle_create_task s fe now file =
      (s, Except.error "File does not exist") := by
    simp [Tasks.handle_create_task, hmiss]
  refine ⟨h1, ?_⟩
  intro file2 now2 hok
  rw [h1]
  simp [Tasks.handle_create_task, hok]

theorem claim4_create_missing_file_wit :
    Tasks.handle_create_task Tasks.initState
        (fun f => !(f == "missing.gcode")) 3 "missing.gcode" =
      (Tasks.initState, Except.error "File does not exist") ∧
    (Tasks.handle_create_task
        (Tasks.handle_create_task Tasks.initState
          (fun f => !(f == "missing.gcode")) 3 "missing.gcode").1
        (fun f => !(f == "missing.gcode")) 4 "part.gcode").2 =
      Except.ok (Tasks.newTask 0 "part.gcode" 4) := by
  have h := claim4_create_missing_file Tasks.initState
    (fun f => !(f == "missing.gcode")) 3 "missing.gcode" (by decide)
  exact ⟨h.1, h.2 "part.gcode" 4 (by decide)⟩

/-- C5: start_task returns `No task specified` without an id and
`Task does not exist` for an unknown id, leaving the state untouched in
both cases; when the device rejects the start command the exception
propagates and the state is also untouched; on success only the current
pointer changes (to the normalized id), every task record staying as it
was. -/
theorem claim5_start_task_errors (s : TasksState)
    (gcdb : String → Option String) (now : Nat) (sp : String → Bool) :
    (Tasks.start_task s gcdb now sp none =
      (s, StartResult.err "No task specified")) ∧
    (∀ n, Tasks.get_task s gcdb now (some (fmt06 n)) = none →
      Tasks.start_task s gcdb now sp (some n) =
        (s, StartResult.err "Task does not exist")) ∧
    (∀ n t, Tasks.get_task s gcdb now (some (fmt06 n)) = some t →
      sp t.filename = false →
      Tasks.start_task s gcdb now sp (some n) = (s, StartResult.raised)) ∧
    (∀ n t, Tasks.get_task s gcdb now (some (fmt06 n)) = some t →
      sp t.filename = true →
      Tasks.start_task s gcdb now sp (some n) =
        ({ s with current := some (fmt06 n) }, StartResult.ok)) := by
  refine ⟨rfl, ?_, ?_, ?_⟩
  · intro n h
    simp [Tasks.start_task, h]
  · intro n t h hsp
    simp [Tasks.start_task, h, hsp]
  · intro n t h hsp
    simp [Tasks.start_task, h, hsp]

theorem claim5_start_task_errors_wit :
    Tasks.start_task sampleState gcdbEx 4 (fun _ => true) none =
        (sampleState, StartResult.err "No task specified") ∧
    Tasks.start_task sampleState gcdbEx 4 (fun _ => true) (some 7) =
        (sampleState, StartResult.err "Task does not exist") ∧
    Tasks.start_task sampleState gcdbEx 4 (fun _ => true) (some 0) =
        ({ sampleState with current := some (fmt06 0) }, StartResult.ok) := by
  have h := claim5_start_task_errors sampleState gcdbEx 4 (fun _ => true)
  exact ⟨h.1, h.2.1 7 (by decide),
    h.2.2.2 0 { sampleTask with metadata := some "META" } (by decide) rfl⟩

/-- C6: the claim states that a disconnect or shutdown event with no
current task changes nothing and does not fault; on the code both handlers
call finish_task unconditionally, get_task of the None pointer returns
None, and the status assignment then raises AttributeError: the handler
faults (result none). -/
theorem claim6_disconnect_faults_without_current :
    Tasks.handle_disconnect Tasks.initState gcdbEx 3 = none ∧
    Tasks.handle_shutdown Tasks.initState gcdbEx 3 = none :=
  ⟨rfl, rfl⟩

/-- C7: the claim states that N job-added events arriving while one task is
continuously current leave all N job ids in the persisted jobs sequence; on
the code the deserialization in PrinterTask resets jobs to the empty list,
so after two added events with ids J1 and J2 the persisted record holds
only jobs = [J2] (with last_job_id J2), not [J1, J2]. -/
theorem claim7_jobs_history_lost :
    ((Tasks.handle_history sampleState gcdbEx 7 "added" "J1").bind (fun s1 =>
        Tasks.handle_history s1 gcdbEx 8 "added" "J2")).map (fun s2 =>
      (dGet s2.tasks "000000").map (fun t => (t.jobs, t.last_job_id))) =
      some (some (["J2"], some "J2")) := by decide

/-- C9: the claim states that a failed print_stats subscription at startup
is logged and the handler continues with an empty snapshot; on the code the
handler logs and then reads the local `result` that was never bound,
raising UnboundLocalError: the ready handler faults (result none) for every
prior state. -/
theorem claim9_init_ready_faults (s : TasksState) :
    Tasks.init_ready s (Except.error ()) = none := rfl

/-- C10: processing a status event whose payload carries a state field
requires the last observed snapshot to already contain a state key: from
the initial empty snapshot the handler faults with a KeyError (result
none) instead of treating the event as a change or a no-op. -/
theorem claim10_state_key_precondition (s : TasksState)
    (gcdb : String → Option String) (now : Nat) (data : StatusData)
    (st : String)
    (hst : dGet data.print_stats "state" = some st)
    (hempty : s.print_stats = []) :
    Tasks.status_update s gcdb now data = none := by
  simp only [Tasks.status_update, hst, hempty]
  rfl

theorem claim10_state_key_precondition_wit :
    Tasks.status_update Tasks.initState gcdbEx 0
      { print_stats := [("state", "printing")] } = none :=
  claim10_state_key_precondition Tasks.initState gcdbEx 0 _ "printing"
    rfl rfl

/-- C3: a create call for an existing file allocates the current counter
value as the id (rendered by the 6 wide zero padded decimal format),
derives the name from the basename of the file without extension, stamps
the creation time, sets status created, persists the record and returns
it, incrementing the counter; and N sequential successful creates starting
from a fresh counter return exactly the tasks with ids fmt06 0 .. fmt06
(N-1) in order, with no gaps or repeats, each id a 6 character string. -/
theorem claim3_create_allocation (fe : String → Bool) (s : TasksState)
    (inputs : List (String × Nat))
    (hall : ∀ p ∈ inputs, fe p.1 = true) (h0 : s.nextid = 0)
    (hN : inputs.length ≤ 1000000) :
    (∀ s2 file now, fe file = true →
      Tasks.handle_create_task s2 fe now file =
        ({ Tasks.save_task s2 (Tasks.newTask s2.nextid file now) with
            nextid := s2.nextid + 1 },
          Except.ok (Tasks.newTask s2.nextid file now))) ∧
    (Tasks.createMany fe s inputs).2 =
      (enumWith 0 inputs).map
        (fun q => Except.ok (Tasks.newTask q.1 q.2.1 q.2.2)) ∧
    (Tasks.createMany fe s inputs).2.filterMap okTaskId =
      (List.range inputs.length).map fmt06 ∧
    ((List.range inputs.length).map fmt06).Nodup ∧
    (∀ idStr ∈ (List.range inputs.length).map fmt06, idStr.length = 6) := by
  obtain ⟨hm1, hm2⟩ := createMany_spec fe inputs s hall
  rw [h0] at hm1
  have hfm : ∀ (l : List (Nat × (String × Nat))),
      (l.map (fun q => Except.ok (Tasks.newTask q.1 q.2.1 q.2.2))).filterMap
          okTaskId =
        l.map (fun q => fmt06 q.1) := by
    intro l
    induction l with
    | nil => rfl
    | cons x xs ih =>
      simp only [List.map_cons, List.filterMap_cons]
      rw [ih]
      rfl
  refine ⟨?_, hm1, ?_, ?_, ?_⟩
  · intro s2 file now hok
    simp [Tasks.handle_create_task, hok]
  · rw [hm1, hfm, List.range_eq_range', ← enumWith_map_fst inputs 0,
      List.map_map]
    rfl
  · exact List.Nodup.map fmt06_injective (List.nodup_range _)
  · intro idStr hmem
    rw [List.mem_map] at hmem
    obtain ⟨n, hn, rfl⟩ := hmem
    rw [List.mem_range] at hn
    exact fmt06_length n (by omega)

theorem claim3_create_allocation_wit :
    (Tasks.createMany (fun _ => true) Tasks.initState
        [("part.gcode", 5), ("box.gcode", 6)]).2 =
      (enumWith 0 [("part.gcode", 5), ("box.gcode", 6)]).map
        (fun q => Except.ok (Tasks.newTask q.1 q.2.1 q.2.2)) ∧
    (Tasks.createMany (fun _ => true) Tasks.initState
        [("part.gcode", 5), ("box.gcode", 6)]).2.filterMap okTaskId =
      (List.range 2).map fmt06 := by
  have h := claim3_create_allocation (fun _ => true) Tasks.initState
    [("part.gcode", 5), ("box.gcode", 6)] (by intro p _; rfl) rfl (by decide)
  exact ⟨h.2.1, h.2.2.1⟩

/-! Reduction helpers for the status event handlers. -/

theorem set_task_state_eq (s : TasksState) (gcdb : String → Option String)
    (now : Nat) (c : String) (d : PrinterTask)
    (hc : s.current = some c) (hd : dGet s.tasks c = some d) (st : String) :
    Tasks.set_task_state s gcdb now st = some (afterSet s gcdb now d st) := by
  simp [Tasks.set_task_state, Tasks.get_task, hc, hd, Tasks.save_task,
    PrinterTask.ofData, materialized, afterSet]

theorem finish_task_eq (s : TasksState) (gcdb : String → Option String)
    (now : Nat) (c : String) (d : PrinterTask)
    (hc : s.current = some c) (hd : dGet s.tasks c = some d) (st : String) :
    Tasks.finish_task s gcdb now st =
      some (afterFinish s gcdb now d st) := by
  simp only [Tasks.finish_task, set_task_state_eq s gcdb now c d hc hd st,
    Option.map_some']
  rfl

theorem status_update_eq (s : TasksState) (gcdb : String → Option String)
    (now : Nat) (data : StatusData) (ns os : String)
    (hns : dGet data.print_stats "state" = some ns)
    (hos : dGet s.print_stats "state" = some os) :
    Tasks.status_update s gcdb now data =
      if ns ≠ os then
        if ns = "printing" ∧ s.current ≠ none then
          Tasks.set_task_state s gcdb now "printing"
        else if s.current ≠ none then
          (if ns = "complete" then Tasks.finish_task s gcdb now "completed"
            else some s).bind (fun s1 =>
              if ns = "standby" then Tasks.finish_task s1 gcdb now "cancelled"
              else if ns = "error" then Tasks.finish_task s1 gcdb now "error"
              else some s1)
        else some s
      else some s := by
  simp only [Tasks.status_update, Tasks.status_update_transition, hns, hos]

/-- C1: on a status event whose state differs from the snapshot state while
a task is current (and stored under its own id): state printing sets the
current task status to printing and keeps the pointer; complete, standby
and error finish the task with status completed, cancelled and error
respectively and clear the pointer; and with no current task the event
changes nothing at all. -/
theorem claim1_status_transitions (s : TasksState)
    (gcdb : String → Option String) (now : Nat) (data : StatusData)
    (ns os : String)
    (hns : dGet data.print_stats "state" = some ns)
    (hos : dGet s.print_stats "state" = some os)
    (hne : ns ≠ os) :
    (∀ c d, s.current = some c → dGet s.tasks c = some d → d.task_id = c →
      (ns = "printing" → ∃ s1,
        Tasks.status_update s gcdb now data = some s1 ∧
        s1.current = some c ∧
        (dGet s1.tasks c).map PrinterTask.status = some "printing") ∧
      (ns = "complete" → ∃ s1,
        Tasks.status_update s gcdb now data = some s1 ∧
        s1.current = none ∧
        (dGet s1.tasks c).map PrinterTask.status = some "completed") ∧
      (ns = "standby" → ∃ s1,
        Tasks.status_update s gcdb now data = some s1 ∧
        s1.current = none ∧
        (dGet s1.tasks c).map PrinterTask.status = some "cancelled") ∧
      (ns = "error" → ∃ s1,
        Tasks.status_update s gcdb now data = some s1 ∧
        s1.current = none ∧
        (dGet s1.tasks c).map PrinterTask.status = some "error")) ∧
    (s.current = none → Tasks.status_update s gcdb now data = some s) := by
  have hred := status_update_eq s gcdb now data ns os hns hos
  constructor
  · intro c d hc hd hkey
    refine ⟨?_, ?_, ?_, ?_⟩
    · intro hpr
      subst hpr
      refine ⟨afterSet s gcdb now d "printing", ?_, ?_, ?_⟩
      · rw [hred, if_pos hne, if_pos ⟨rfl, by simp [hc]⟩]
        exact set_task_state_eq s gcdb now c d hc hd "printing"
      · exact hc
      · show (dGet (dSet s.tasks d.task_id
          (materialized gcdb now d "printing")) c).map PrinterTask.status =
          some "printing"
        rw [hkey, dGet_dSet_self]
        rfl
    · intro hcm
      subst hcm
      refine ⟨afterFinish s gcdb now d "completed", ?_, ?_, ?_⟩
      · rw [hred, if_pos hne, if_neg (fun h => absurd h.1 (by decide)),
          if_pos (by simp [hc]), if_pos rfl,
          finish_task_eq s gcdb now c d hc hd "completed",
          Option.some_bind, if_neg (by decide), if_neg (by decide)]
      · rfl
      · show (dGet (dSet s.tasks d.task_id
          (materialized gcdb now d "completed")) c).map PrinterTask.status =
          some "completed"
        rw [hkey, dGet_dSet_self]
        rfl
    · intro hsb
      subst hsb
      refine ⟨afterFinish s gcdb now d "cancelled", ?_, ?_, ?_⟩
      · rw [hred, if_pos hne, if_neg (fun h => absurd h.1 (by decide)),
          if_pos (by simp [hc]), if_neg (by decide), Option.some_bind,
          if_pos rfl]
        exact finish_task_eq s gcdb now c d hc hd "cancelled"
      · rfl
      · show (dGet (dSet s.tasks d.task_id
          (materialized gcdb now d "cancelled")) c).map PrinterTask.status =
          some "cancelled"
        rw [hkey, dGet_dSet_self]
        rfl
    · intro her
      subst her
      refine ⟨afterFinish s gcdb now d "error", ?_, ?_, ?_⟩
      · rw [hred, if_pos hne, if_neg (fun h => absurd h.1 (by decide)),
          if_pos (by simp [hc]), if_neg (by decide), Option.some_bind,
          if_neg (by decide), if_pos rfl]
        exact finish_task_eq s gcdb now c d hc hd "error"
      · rfl
      · show (dGet (dSet s.tasks d.task_id
          (materialized gcdb now d "error")) c).map PrinterTask.status =
          some "error"
        rw [hkey, dGet_dSet_self]
        rfl
  · intro hnone
    rw [hred, if_pos hne, if_neg (fun h => h.2 hnone),
      if_neg (fun h => h hnone)]

theorem claim1_status_transitions_wit :
    (∃ s1, Tasks.status_update sampleState gcdbEx 9
        { print_stats := [("state", "printing")] } = some s1 ∧
      s1.current = some "000000" ∧
      (dGet s1.tasks "000000").map PrinterTask.status = some "printing") ∧
    (∃ s1, Tasks.status_update sampleState gcdbEx 9
        { print_stats := [("state", "complete")] } = some s1 ∧
      s1.current = none ∧
      (dGet s1.tasks "000000").map PrinterTask.status = some "completed") := by
  constructor
  · exact (((claim1_status_transitions sampleState gcdbEx 9
      { print_stats := [("state", "printing")] } "printing" "standby"
      rfl rfl (by decide)).1 "000000" sampleTask rfl rfl rfl).1) rfl
  · exact (((claim1_status_transitions sampleState gcdbEx 9
      { print_stats := [("state", "complete")] } "complete" "standby"
      rfl rfl (by decide)).1 "000000" sampleTask rfl rfl rfl).2.1) rfl

/-- C2: the claim states that a status event whose reported state equals
the state recorded in the last observed snapshot mutates no task record
and leaves the current pointer unchanged; on the code the guard at line
150 compares object identity, and the snapshot state and the event state
come from separately parsed messages, so the guard also passes for a
value equal duplicate event and the transition block runs: on a duplicate
standby event with task 000000 current, the block finishes the task with
status cancelled and clears the current pointer. -/
theorem claim2_duplicate_event_mutates :
    Tasks.status_update_transition sampleState gcdbEx 9 "standby" =
      some (afterFinish sampleState gcdbEx 9 sampleTask "cancelled") ∧
    (afterFinish sampleState gcdbEx 9 sampleTask "cancelled").current =
      none ∧
    (dGet (afterFinish sampleState gcdbEx 9 sampleTask "cancelled").tasks
        "000000").map PrinterTask.status = some "cancelled" := by decide

/-- C8 counterexample: a reachable state whose store violates the claimed
invariant.  From the initialized manager, after klippy becomes ready in
standby, a task is created for part.gcode and started, and the device
reports printing, the persisted record of task 000000 carries the joined
metadata value META of its file: persisted task records do contain a
metadata field. -/
theorem claim8_metadata_persisted_cex :
    chain8.map (fun s2 => (dGet s2.tasks "000000").map PrinterTask.metadata) =
      some (some (some "META")) := by decide

/-- C8 amended: the store is not metadata free: the create path persists a
record whose metadata field is empty, and the status transition path
persists the metadata value joined at write time; what does hold is that
metadata is joined in fresh from the provider on every materialization for
a caller, so every task returned by get_task or the list endpoint carries
exactly the current provider entry for its filename, whatever was
stored. -/
theorem claim8_metadata_fresh_join (s : TasksState)
    (gcdb : String → Option String) (now : Nat) :
    (∀ tid t, Tasks.get_task s gcdb now (some tid) = some t →
      t.metadata = gcdb t.filename) ∧
    (∀ t ∈ Tasks.handle_tasks_list s gcdb, t.metadata = gcdb t.filename) ∧
    (∀ fe file, (Tasks.handle_create_task s fe now file).2 =
        Except.ok (Tasks.newTask s.nextid file now) →
      (Tasks.newTask s.nextid file now).metadata = none) ∧
    (∀ st c d, s.current = some c → dGet s.tasks c = some d →
      Tasks.set_task_state s gcdb now st = some (afterSet s gcdb now d st) ∧
      (materialized gcdb now d st).metadata = gcdb d.filename) := by
  refine ⟨?_, ?_, ?_, ?_⟩
  · intro tid t h
    simp only [Tasks.get_task, Option.some_bind] at h
    rcases hdg : dGet s.tasks tid with _ | d
    · rw [hdg] at h
      exact absurd h (by simp)
    · rw [hdg] at h
      simp only [Option.map_some'] at h
      injection h with h4
      subst h4
      rfl
  · intro t ht
    simp only [Tasks.handle_tasks_list, List.mem_map] at ht
    obtain ⟨p, _, rfl⟩ := ht
    rfl
  · intro fe file _
    rfl
  · intro st c d hc hd
    exact ⟨set_task_state_eq s gcdb now c d hc hd st, rfl⟩

theorem claim8_metadata_fresh_join_wit :
    Tasks.set_task_state sampleState gcdbEx 9 "printing" =
      some (afterSet sampleState gcdbEx 9 sampleTask "printing") ∧
    (materialized gcdbEx 9 sampleTask "printing").metadata = some "META" :=
  (claim8_metadata_fresh_join sampleState gcdbEx 9).2.2.2 "printing"
    "000000" sampleTask rfl rfl

end Moonraker
